import Mathlib

/-!
Verification of the resilient dual-store data layer of the Karonga village
bank application (`Village.py`).  The Python source is shallowly embedded:

* a Python `dict` row is a `Data` association list of field name / `JVal`
  (later bindings win, exactly as successive `dict` assignments do);
* `hashlib.md5(json.dumps(data, sort_keys=True).encode()).hexdigest()` is
  embedded as real MD5 over the real sorted-keys JSON rendering;
* the SQLite tables `SyncTracking`, `ConflictResolution` and `SyncLog` are
  lists of row structures inside `SyncState`; the business tables of the
  two stores are `Store` lists of `(table, row)` pairs;
* `datetime.now()` / `time.time()` are an explicit clock (`now`,
  `currentTime` arguments), with ISO timestamps modelled as naturals whose
  order agrees with the lexicographic order of the ISO strings;
* Python exceptions are `Except String`; in particular the enum lookup
  `SyncStatus(value)` raises `ValueError` for a value that is not a member,
  exactly as `enum.Enum` does.
-/

namespace Village

/-- JSON-serialisable field values appearing in row snapshots.  Numeric
values are modelled as integers; floating point is out of scope. -/
inductive JVal where
  | jstr  : String → JVal
  | jint  : Int → JVal
  | jbool : Bool → JVal
  | jnull : JVal
deriving DecidableEq

/-- A Python dict (row snapshot): an association list where the last
binding of a key wins. -/
abbrev Data := List (String × JVal)

/-- Digits used by JSON `\uXXXX` escapes and by MD5 hex digests. -/
def hexDigit (n : Nat) : Char :=
  if n < 10 then Char.ofNat (48 + n) else Char.ofNat (87 + n % 16)

/-- Four-digit lowercase hex rendering, as in `json.dumps` unicode escapes. -/
def hex4 (n : Nat) : String :=
  String.mk [hexDigit (n / 4096 % 16), hexDigit (n / 256 % 16),
             hexDigit (n / 16 % 16), hexDigit (n % 16)]

/-- Escaping of one character inside a JSON string, following
`json.dumps` with its default `ensure_ascii=True`. -/
def jsonEscapeChar (c : Char) : String :=
  let n := c.toNat
  if c = '"' then "\\\""
  else if c = '\\' then "\\\\"
  else if c = Char.ofNat 10 then "\\n"
  else if c = Char.ofNat 9 then "\\t"
  else if c = Char.ofNat 13 then "\\r"
  else if c = Char.ofNat 8 then "\\b"
  else if c = Char.ofNat 12 then "\\f"
  else if n < 32 then "\\u" ++ hex4 n
  else if n < 127 then String.singleton c
  else if n < 65536 then "\\u" ++ hex4 n
  else
    let m := n - 65536
    "\\u" ++ hex4 (55296 + m / 1024) ++ "\\u" ++ hex4 (56320 + m % 1024)

/-- JSON string-body escaping (`json.dumps` default settings). -/
def jsonEscape (s : String) : String :=
  s.data.foldr (fun c acc => jsonEscapeChar c ++ acc) ""

/-- Rendering of one JSON value as `json.dumps` renders it. -/
def renderJVal : JVal → String
  | .jstr s  => "\"" ++ jsonEscape s ++ "\""
  | .jint n  => toString n
  | .jbool true  => "true"
  | .jbool false => "false"
  | .jnull   => "null"

/-- The value of key `k` in dict `d` (the last binding wins, as in a
Python dict built left to right). -/
def dictGet (d : Data) (k : String) : Option JVal :=
  d.reverse.lookup k

/-- Lexicographic code-point comparison of strings — the order Python
string comparison (and hence `sort_keys=True`) uses. -/
def charListLe : List Char → List Char → Bool
  | [], _ => true
  | _ :: _, [] => false
  | a :: as, b :: bs =>
      if a.toNat < b.toNat then true
      else if b.toNat < a.toNat then false
      else charListLe as bs

/-- String comparison by code points. -/
def strLe (a b : String) : Bool :=
  charListLe a.data b.data

/-- Insert a key into a sorted key list. -/
def insertKey (k : String) : List String → List String
  | [] => [k]
  | x :: xs => if strLe k x then k :: x :: xs else x :: insertKey k xs

/-- Sort keys in code-point order. -/
def sortKeys : List String → List String
  | [] => []
  | k :: ks => insertKey k (sortKeys ks)

/-- Drop duplicate keys (a Python dict holds each key once). -/
def dedupKeys : List String → List String
  | [] => []
  | k :: ks => if k ∈ ks then dedupKeys ks else k :: dedupKeys ks

/-- The key set of dict `d`, sorted as `sort_keys=True` sorts it
(code-point order on strings). -/
def dictKeys (d : Data) : List String :=
  sortKeys (dedupKeys (d.map Prod.fst))

/-- `json.dumps(data, sort_keys=True)` for a row snapshot: keys sorted,
default separators. -/
def jsonDumpsSorted (d : Data) : String :=
  "\x7b" ++ String.intercalate ", "
    ((dictKeys d).map fun k =>
      "\"" ++ jsonEscape k ++ "\": " ++ renderJVal ((dictGet d k).getD .jnull))
  ++ "\x7d"

/-- UTF-8 encoding of one code point (`str.encode()`). -/
def utf8EncodeChar (c : Char) : List Nat :=
  let n := c.toNat
  if n < 128 then [n]
  else if n < 2048 then [192 + n / 64, 128 + n % 64]
  else if n < 65536 then [224 + n / 4096, 128 + n / 64 % 64, 128 + n % 64]
  else [240 + n / 262144, 128 + n / 4096 % 64, 128 + n / 64 % 64, 128 + n % 64]

/-- UTF-8 bytes of a string (`str.encode()`). -/
def utf8Bytes (s : String) : List Nat :=
  s.data.foldr (fun c acc => utf8EncodeChar c ++ acc) []

/-! ### MD5 (`hashlib.md5`)

Standard MD5 over byte lists, with 32-bit words as naturals reduced
modulo `2 ^ 32`. -/

/-- The per-round left-rotation amounts of MD5. -/
def md5s : List Nat :=
  [7, 12, 17, 22, 7, 12, 17, 22, 7, 12, 17, 22, 7, 12, 17, 22,
   5, 9, 14, 20, 5, 9, 14, 20, 5, 9, 14, 20, 5, 9, 14, 20,
   4, 11, 16, 23, 4, 11, 16, 23, 4, 11, 16, 23, 4, 11, 16, 23,
   6, 10, 15, 21, 6, 10, 15, 21, 6, 10, 15, 21, 6, 10, 15, 21]

/-- The MD5 sine-derived constants `floor(abs(sin(i + 1)) * 2 ^ 32)`. -/
def md5K : List Nat :=
  [3614090360, 3905402710, 606105819, 3250441966, 4118548399, 1200080426,
   2821735955, 4249261313, 1770035416, 2336552879, 4294925233, 2304563134,
   1804603682, 4254626195, 2792965006, 1236535329, 4129170786, 3225465664,
   643717713, 3921069994, 3593408605, 38016083, 3634488961, 3889429448,
   568446438, 3275163606, 4107603335, 1163531501, 2850285829, 4243563512,
   1735328473, 2368359562, 4294588738, 2272392833, 1839030562, 4259657740,
   2763975236, 1272893353, 4139469664, 3200236656, 681279174, 3936430074,
   3572445317, 76029189, 3654602809, 3873151461, 530742520, 3299628645,
   4096336452, 1126891415, 2878612391, 4237533241, 1700485571, 2399980690,
   4293915773, 2240044497, 1873313359, 4264355552, 2734768916, 1309151649,
   4149444226, 3174756917, 718787259, 3951481745]

/-- 32-bit complement. -/
def bnot32 (x : Nat) : Nat := 4294967295 - x % 4294967296

/-- 32-bit left rotation. -/
def rotl32 (x c : Nat) : Nat :=
  ((x <<< c) % 4294967296) ||| (x >>> (32 - c))

/-- MD5 padding: a `0x80` byte, zeros to 56 mod 64, then the bit length
as eight little-endian bytes. -/
def md5Pad (msg : List Nat) : List Nat :=
  let bitLen := msg.length * 8 % (2 ^ 64)
  let zeros := (56 + 64 - (msg.length + 1) % 64) % 64
  msg ++ [128] ++ List.replicate zeros 0
      ++ ((List.range 8).map fun i => bitLen >>> (8 * i) % 256)

/-- Split a byte list into 64-byte blocks (structural recursion on a fuel
bound, so that the kernel can evaluate digests). -/
def chunks64Go : Nat → List Nat → List (List Nat)
  | 0, _ => []
  | _, [] => []
  | fuel + 1, bs => bs.take 64 :: chunks64Go fuel (bs.drop 64)

/-- Split a byte list into 64-byte blocks. -/
def chunks64 (bs : List Nat) : List (List Nat) :=
  chunks64Go bs.length bs

/-- Little-endian 32-bit word number `g` of a 64-byte block. -/
def chunkWord (chunk : List Nat) (g : Nat) : Nat :=
  let b := chunk.drop (4 * g)
  b.getD 0 0 + 256 * b.getD 1 0 + 65536 * b.getD 2 0 + 16777216 * b.getD 3 0

/-- One of the 64 MD5 rounds. -/
def md5Round (chunk : List Nat) (st : Nat × Nat × Nat × Nat) (i : Nat) :
    Nat × Nat × Nat × Nat :=
  let (a, b, c, d) := st
  let fg : Nat × Nat :=
    if i < 16 then ((b &&& c) ||| (bnot32 b &&& d), i)
    else if i < 32 then ((d &&& b) ||| (bnot32 d &&& c), (5 * i + 1) % 16)
    else if i < 48 then (b ^^^ c ^^^ d, (3 * i + 5) % 16)
    else (c ^^^ (b ||| bnot32 d), 7 * i % 16)
  let f := (fg.1 + a + md5K.getD i 0 + chunkWord chunk fg.2) % 4294967296
  (d, (b + rotl32 f (md5s.getD i 0)) % 4294967296, b, c)

/-- Process one 64-byte block of MD5. -/
def md5Chunk (st : Nat × Nat × Nat × Nat) (chunk : List Nat) :
    Nat × Nat × Nat × Nat :=
  let (a0, b0, c0, d0) := st
  let (a, b, c, d) := (List.range 64).foldl (md5Round chunk) (a0, b0, c0, d0)
  ((a0 + a) % 4294967296, (b0 + b) % 4294967296,
   (c0 + c) % 4294967296, (d0 + d) % 4294967296)

/-- A 32-bit word as four little-endian bytes. -/
def wordLE (w : Nat) : List Nat :=
  [w % 256, w >>> 8 % 256, w >>> 16 % 256, w >>> 24 % 256]

/-- The 16 digest bytes of MD5. -/
def md5DigestBytes (msg : List Nat) : List Nat :=
  let r := (chunks64 (md5Pad msg)).foldl md5Chunk
    (1732584193, 4023233417, 2562383102, 271733878)
  wordLE r.1 ++ wordLE r.2.1 ++ wordLE r.2.2.1 ++ wordLE r.2.2.2

/-- One byte as two lowercase hex characters. -/
def byteToHex (b : Nat) : String :=
  String.mk [hexDigit (b / 16 % 16), hexDigit (b % 16)]

/-- Hex rendering of a byte list. -/
def bytesToHex : List Nat → String
  | [] => ""
  | b :: bs => byteToHex b ++ bytesToHex bs

/-- `hashlib.md5(bytes).hexdigest()`. -/
def md5hex (msg : List Nat) : String :=
  bytesToHex (md5DigestBytes msg)

/-! ### Data model of the sync layer (`Village.py` 2636-2696) -/

/-- `class SyncStatus(Enum)` (line 2636): the five members of the enum.
Note there is no member with value `pending` or `synced`. -/
inductive SyncStatusE where
  | idle | syncing | conflict | error | completed
deriving DecidableEq

/-- `SyncStatus(value)`: enum lookup by value.  As in Python, a value that
is not a member raises `ValueError`. -/
def syncStatusOfValue : String → Except String SyncStatusE
  | "idle" => .ok .idle
  | "syncing" => .ok .syncing
  | "conflict" => .ok .conflict
  | "error" => .ok .error
  | "completed" => .ok .completed
  | v => .error ("ValueError: " ++ v ++ " is not a valid SyncStatus")

/-- `class ConflictResolution(Enum)` (line 2644). -/
inductive ConflictResolutionE where
  | mysql_wins | sqlite_wins | manual | latest_timestamp
deriving DecidableEq

/-- The `.value` string of a `ConflictResolution` member. -/
def ConflictResolutionE.value : ConflictResolutionE → String
  | .mysql_wins => "mysql_wins"
  | .sqlite_wins => "sqlite_wins"
  | .manual => "manual"
  | .latest_timestamp => "latest_timestamp"

/-- One row of the SQLite `SyncTracking` table (schema at line 2705).
`sync_id` is the AUTOINCREMENT key, so it records insertion order. -/
structure SyncRow where
  sync_id : Nat
  table_name : String
  record_id : Int
  operation : String
  timestamp : Nat
  data_hash : String
  sync_status : String
  conflict_data : Option Data := none
  synced_at : Option Nat := none
deriving DecidableEq

/-- The `SyncRecord` dataclass (line 2652), as `_get_pending_sync_records`
constructs it from a `SyncTracking` row. -/
structure SyncRecord where
  table_name : String
  record_id : Int
  operation : String
  timestamp : Nat
  data_hash : String
  sync_status : SyncStatusE
  conflict_data : Option Data := none
deriving DecidableEq

/-- The `ConflictRecord` dataclass (line 2663).  `sqlite_data` is an
`Option` because `_sync_record` passes the possibly absent current SQLite
row straight through (Python would hold `None` there). -/
structure ConflictRecord where
  table_name : String
  record_id : Int
  sqlite_data : Option Data
  mysql_data : Data
  sqlite_timestamp : Nat
  mysql_timestamp : Nat
  resolution_strategy : ConflictResolutionE
  resolved : Bool := false
deriving DecidableEq

/-- One row of the SQLite `ConflictResolution` table (schema at line
2732); `resolved` is the INTEGER flag, default 0. -/
structure ConflictRow where
  conflict_id : Nat
  table_name : String
  record_id : Int
  sqlite_data : Option Data
  mysql_data : Data
  sqlite_timestamp : Nat
  mysql_timestamp : Nat
  resolution_strategy : String
  resolved : Bool := false
  resolved_at : Option Nat := none
  created_at : Nat := 0
deriving DecidableEq

/-- One row of the `SyncLog` table (schema at line 2721). -/
structure LogRow where
  sync_session_id : String
  message : String
  level : String
deriving DecidableEq

/-- A business-table row of one of the two stores. -/
structure TableRow where
  table : String
  data : Data
deriving DecidableEq

/-- The rows of a store, in insertion order. -/
abbrev Store := List TableRow

/-- The mutable state of a `DatabaseSyncManager` plus the two stores it
talks to.  `now` is the model clock behind `datetime.now()` and
`CURRENT_TIMESTAMP`; `nextSyncId` / `nextConflictId` are the AUTOINCREMENT
counters of the two SQLite tables. -/
structure SyncState where
  syncTracking : List SyncRow := []
  conflictTable : List ConflictRow := []
  syncLogTable : List LogRow := []
  sqliteStore : Store := []
  mysqlStore : Store := []
  conflicts : List ConflictRecord := []
  sync_status : SyncStatusE := .idle
  nextSyncId : Nat := 1
  nextConflictId : Nat := 1
  now : Nat := 0
deriving DecidableEq

/-- `self.sync_tables` (line 2690): the enrolled allow-list. -/
def sync_tables : List String :=
  ["Members", "Contributions", "Loans", "Repayments", "Users", "Settings"]

/-- `_get_primary_key_column` (line 3001). -/
def getPrimaryKeyColumn (table_name : String) : String :=
  if table_name = "Members" then "member_id"
  else if table_name = "Contributions" then "contribution_id"
  else if table_name = "Loans" then "loan_id"
  else if table_name = "Repayments" then "repayment_id"
  else if table_name = "Users" then "username"
  else if table_name = "Settings" then "setting_name"
  else "id"

/-- `_calculate_data_hash` (line 3102):
`md5(json.dumps(data, sort_keys=True).encode()).hexdigest()`. -/
def calculateDataHash (data : Data) : String :=
  md5hex (utf8Bytes (jsonDumpsSorted data))

/-! ### Store access (`_get_record_data` and the MySQL writers) -/

/-- The primary-key value of a stored row, read from its own data. -/
def rowPkValue (r : TableRow) : Option JVal :=
  dictGet r.data (getPrimaryKeyColumn r.table)

/-- `_get_record_data` (line 2973): `SELECT * FROM table WHERE pk = id`,
first matching row. -/
def getRecordData (store : Store) (table_name : String) (record_id : Int) :
    Option Data :=
  (store.find? fun r =>
    r.table == table_name && rowPkValue r == some (JVal.jint record_id)).map
    (·.data)

/-- `_insert_record_to_mysql` (line 3013): INSERT of all of `data`'s
columns. -/
def insertRecordToMysql (store : Store) (table_name : String) (data : Data) :
    Store :=
  store ++ [⟨table_name, data⟩]

/-- `_update_record_in_mysql` (line 3029): `UPDATE table SET c = v` for
every non-primary-key column of `data`, `WHERE pk = record_id`.  Columns
of the stored row that `data` does not mention keep their values. -/
def updateRecordInMysql (store : Store) (table_name : String)
    (record_id : Int) (data : Data) : Store :=
  let pk := getPrimaryKeyColumn table_name
  store.map fun r =>
    if r.table == table_name && rowPkValue r == some (JVal.jint record_id) then
      { r with data := r.data.map fun kv =>
          if kv.1 == pk then kv
          else match dictGet data kv.1 with
            | some v => (kv.1, v)
            | none => kv }
    else r

/-- `_delete_record_from_mysql` (line 3046): `DELETE FROM table WHERE
pk = record_id`. -/
def deleteRecordFromMysql (store : Store) (table_name : String)
    (record_id : Int) : Store :=
  store.filter fun r =>
    !(r.table == table_name && rowPkValue r == some (JVal.jint record_id))

/-! ### Change Tracker, Sync Log, Conflict Store -/

/-- `_log_sync_message` (line 3126): append one `SyncLog` row. -/
def logSyncMessage (st : SyncState) (session_id message level : String) :
    SyncState :=
  { st with syncLogTable := st.syncLogTable ++ [⟨session_id, message, level⟩] }

/-- `track_record_change` (line 3145): a no-op for a table that is not in
`sync_tables`; otherwise hash the supplied snapshot (whatever the
operation is) and append one `SyncTracking` row with status `pending`. -/
def trackRecordChange (st : SyncState) (table_name : String)
    (record_id : Int) (operation : String) (data : Data) : SyncState :=
  if !(sync_tables.contains table_name) then st
  else
    let data_hash := calculateDataHash data
    { st with
      syncTracking := st.syncTracking ++
        [{ sync_id := st.nextSyncId, table_name, record_id, operation,
           timestamp := st.now, data_hash, sync_status := "pending" }],
      nextSyncId := st.nextSyncId + 1 }

/-- `DatabaseManager.track_change` (line 4570): forwards to the tracker
only when a sync manager exists and the current connection is the SQLite
fallback. -/
def trackChange (hasSyncManager : Bool) (current_db_type : String)
    (st : SyncState) (table_name : String) (record_id : Int)
    (operation : String) (data : Data) : SyncState :=
  if hasSyncManager && current_db_type == "sqlite" then
    trackRecordChange st table_name record_id operation data
  else st

/-- `_mark_record_synced` (line 3108): `UPDATE SyncTracking SET
sync_status = synced, synced_at = CURRENT_TIMESTAMP WHERE table_name = ?
AND record_id = ? AND operation = ?` — every matching row, with no
condition on its current status. -/
def markRecordSynced (st : SyncState) (table_name : String)
    (record_id : Int) (operation : String) : SyncState :=
  { st with syncTracking := st.syncTracking.map fun row =>
      if row.table_name == table_name && row.record_id == record_id &&
         row.operation == operation then
        { row with sync_status := "synced", synced_at := some st.now }
      else row }

/-- `_store_conflict_record` (line 3076): INSERT one `ConflictResolution`
row (`resolved` takes its column default 0). -/
def storeConflictRecord (st : SyncState) (c : ConflictRecord) : SyncState :=
  { st with
    conflictTable := st.conflictTable ++
      [{ conflict_id := st.nextConflictId, table_name := c.table_name,
         record_id := c.record_id, sqlite_data := c.sqlite_data,
         mysql_data := c.mysql_data, sqlite_timestamp := c.sqlite_timestamp,
         mysql_timestamp := c.mysql_timestamp,
         resolution_strategy := c.resolution_strategy.value,
         created_at := st.now }],
    nextConflictId := st.nextConflictId + 1 }

/-- `_create_conflict_record` (line 3059): build the dataclass — both
timestamps are `datetime.now()`, not the record timestamps (the source
comments flag this) — store it, and return it. -/
def createConflictRecord (st : SyncState) (table_name : String)
    (record_id : Int) (sqlite_data : Option Data) (mysql_data : Data) :
    ConflictRecord × SyncState :=
  let c : ConflictRecord :=
    { table_name, record_id, sqlite_data, mysql_data,
      sqlite_timestamp := st.now, mysql_timestamp := st.now,
      resolution_strategy := .manual }
  (c, storeConflictRecord st c)

/-- `resolve_conflict` (line 3233): `UPDATE ConflictResolution SET
resolved = 1, resolved_at = CURRENT_TIMESTAMP, resolution_strategy = ?
WHERE conflict_id = ?`, returning `cursor.rowcount > 0`.  There is no
check on `resolved` and no write to either data store. -/
def resolveConflict (st : SyncState) (conflict_id : Nat)
    (resolution : ConflictResolutionE) : SyncState × Bool :=
  let st' := { st with conflictTable := st.conflictTable.map fun row =>
      if row.conflict_id == conflict_id then
        { row with resolved := true, resolved_at := some st.now,
                   resolution_strategy := resolution.value }
      else row }
  (st', st.conflictTable.any (·.conflict_id == conflict_id))

/-! ### Sync Engine (`synchronize_databases` and its helpers) -/

/-- `_get_pending_sync_records` (line 2871): fetch the `pending` rows of
`SyncTracking` ordered by timestamp (`ORDER BY timestamp ASC`; the model
uses a stable sort), then build a `SyncRecord` from each row.  Building
calls `SyncStatus(row[5])`, which raises `ValueError` because the fetched
rows all carry the value `pending` and the enum has no such member. -/
def getPendingSyncRecords (st : SyncState) :
    Except String (List SyncRecord) :=
  let rows := (st.syncTracking.filter (·.sync_status == "pending")
    ).insertionSort (fun a b => a.timestamp ≤ b.timestamp)
  rows.mapM fun row => do
    let status ← syncStatusOfValue row.sync_status
    pure { table_name := row.table_name, record_id := row.record_id,
           operation := row.operation, timestamp := row.timestamp,
           data_hash := row.data_hash, sync_status := status,
           conflict_data := row.conflict_data }

/-- The current-SQLite row, required before a MySQL insert or update; a
missing row makes Python call `data.keys()` on `None` and raise. -/
def requireData (d : Option Data) : Except String Data :=
  match d with
  | some data => .ok data
  | none => .error "AttributeError: NoneType has no attribute keys"

/-- `_handle_insert_sync` (line 2928). -/
def handleInsertSync (st : SyncState) (record : SyncRecord)
    (sqlite_data : Option Data) (mysql_data : Option Data)
    (session_id : String) :
    Except String (Option ConflictRecord × SyncState) :=
  match mysql_data with
  | none => do
      let d ← requireData sqlite_data
      let st := { st with
        mysqlStore := insertRecordToMysql st.mysqlStore record.table_name d }
      let st := logSyncMessage st session_id
        ("Inserted " ++ record.table_name ++ ":" ++ toString record.record_id
          ++ " to MySQL") "INFO"
      .ok (none, st)
  | some md =>
      let (c, st) := createConflictRecord st record.table_name
        record.record_id sqlite_data md
      .ok (some c, st)

/-- `_handle_update_sync` (line 2940): absent on MySQL → insert; present →
compare `_calculate_data_hash(mysql_data)` with the recorded hash;
mismatch → conflict, match → update. -/
def handleUpdateSync (st : SyncState) (record : SyncRecord)
    (sqlite_data : Option Data) (mysql_data : Option Data)
    (session_id : String) :
    Except String (Option ConflictRecord × SyncState) :=
  match mysql_data with
  | none => do
      let d ← requireData sqlite_data
      let st := { st with
        mysqlStore := insertRecordToMysql st.mysqlStore record.table_name d }
      let st := logSyncMessage st session_id
        ("Inserted " ++ record.table_name ++ ":" ++ toString record.record_id
          ++ " to MySQL (was update)") "INFO"
      .ok (none, st)
  | some md =>
      if calculateDataHash md != record.data_hash then
        let (c, st) := createConflictRecord st record.table_name
          record.record_id sqlite_data md
        .ok (some c, st)
      else do
        let d ← requireData sqlite_data
        let st := { st with
          mysqlStore := updateRecordInMysql st.mysqlStore record.table_name
            record.record_id d }
        let st := logSyncMessage st session_id
          ("Updated " ++ record.table_name ++ ":" ++ toString record.record_id
            ++ " in MySQL") "INFO"
        .ok (none, st)

/-- `_handle_delete_sync` (line 2960): present → delete, absent → already
deleted; never a conflict. -/
def handleDeleteSync (st : SyncState) (record : SyncRecord)
    (mysql_data : Option Data) (session_id : String) :
    Option ConflictRecord × SyncState :=
  match mysql_data with
  | some _ =>
      let st := { st with
        mysqlStore := deleteRecordFromMysql st.mysqlStore record.table_name
          record.record_id }
      (none, logSyncMessage st session_id
        ("Deleted " ++ record.table_name ++ ":" ++ toString record.record_id
          ++ " from MySQL") "INFO")
  | none =>
      (none, logSyncMessage st session_id
        ("Record " ++ record.table_name ++ ":" ++ toString record.record_id
          ++ " already deleted from MySQL") "INFO")

/-- `_sync_record` (line 2901): read the current row from both stores and
dispatch on the operation; an unknown operation falls through to
`return None`. -/
def syncRecord (st : SyncState) (record : SyncRecord)
    (session_id : String) :
    Except String (Option ConflictRecord × SyncState) :=
  let sqlite_data := getRecordData st.sqliteStore record.table_name
    record.record_id
  let mysql_data := getRecordData st.mysqlStore record.table_name
    record.record_id
  if record.operation == "INSERT" then
    handleInsertSync st record sqlite_data mysql_data session_id
  else if record.operation == "UPDATE" then
    handleUpdateSync st record sqlite_data mysql_data session_id
  else if record.operation == "DELETE" then
    .ok (handleDeleteSync st record mysql_data session_id)
  else .ok (none, st)

/-- The per-record loop of `synchronize_databases` (lines 2837-2849) over
the already-fetched list: a conflict is appended to `self.conflicts`, a
success is counted and marked synced, and a per-record exception is
logged and skipped.  Returns the state with the two loop counters
`(conflicts_found, records_synced)`. -/
def syncLoop (session_id : String) (records : List SyncRecord)
    (st : SyncState) : SyncState × Nat × Nat :=
  records.foldl
    (fun acc record =>
      let (st, conflicts_found, records_synced) := acc
      match syncRecord st record session_id with
      | .ok (some c, st') =>
          ({ st' with conflicts := st'.conflicts ++ [c] },
           conflicts_found + 1, records_synced)
      | .ok (none, st') =>
          (markRecordSynced st' record.table_name record.record_id
            record.operation, conflicts_found, records_synced + 1)
      | .error e =>
          (logSyncMessage st session_id
            ("Failed to sync " ++ record.table_name ++ ":"
              ++ toString record.record_id ++ ": " ++ e) "ERROR",
           conflicts_found, records_synced))
    (st, 0, 0)

/-- The value `synchronize_databases` computes: its boolean return plus
the two loop counters, which the source logs in its summary lines. -/
structure SessionResult where
  ok : Bool
  conflicts_found : Nat
  records_synced : Nat
deriving DecidableEq

/-- `synchronize_databases` (line 2802).  A session already in progress
returns `False`; the model takes the MySQL connector as importable and
both stores reachable, so the only session-level exception source left is
`_get_pending_sync_records`.  Zero pending records complete immediately;
otherwise the loop runs and the status becomes CONFLICT or COMPLETED. -/
def synchronizeDatabases (st : SyncState) : SyncState × SessionResult :=
  if st.sync_status == .syncing then (st, ⟨false, 0, 0⟩)
  else
    let session_id := toString st.now
    let st := { st with sync_status := .syncing }
    let st := logSyncMessage st session_id
      "Starting database synchronization" "INFO"
    match getPendingSyncRecords st with
    | .error e =>
        ({ logSyncMessage st session_id ("Synchronization failed: " ++ e)
            "ERROR" with sync_status := .error }, ⟨false, 0, 0⟩)
    | .ok [] =>
        ({ logSyncMessage st session_id "No pending records to sync" "INFO"
            with sync_status := .completed }, ⟨true, 0, 0⟩)
    | .ok pending =>
        let (st, conflicts_found, records_synced) :=
          syncLoop session_id pending st
        if conflicts_found > 0 then
          ({ logSyncMessage st session_id
              ("Sync completed with " ++ toString conflicts_found
                ++ " conflicts, " ++ toString records_synced
                ++ " records synced") "WARNING"
             with sync_status := .conflict }, ⟨false, conflicts_found,
               records_synced⟩)
        else
          ({ logSyncMessage st session_id
              ("Sync completed successfully, " ++ toString records_synced
                ++ " records synced") "INFO"
             with sync_status := .completed }, ⟨true, conflicts_found,
               records_synced⟩)

/-! ### Connection Arbiter (`DatabaseManager`, line 4489) -/

/-- The fields of `DatabaseManager.__init__` (line 4490) that
`_check_mysql_availability` reads and writes. -/
structure DBMState where
  mysql_available : Bool := false
  sqlite_fallback_active : Bool := false
  connection_retry_count : Nat := 0
  last_mysql_check : Nat := 0
deriving DecidableEq

/-- `self.mysql_check_interval` (line 4498). -/
def mysqlCheckInterval : Nat := 30

/-- `_check_mysql_availability` (line 4514): rate-limited probe.  Within
the interval the cached status is returned unchanged.  A successful probe
sets available, clears the fallback flag and resets the retry counter; a
failed probe clears available and raises the fallback flag only when the
primary had been available.  `probe_ok` is the outcome of the
`mysql.connector.connect` attempt; the model takes the connector module
as importable. -/
def checkMysqlAvailability (st : DBMState) (current_time : Nat)
    (probe_ok : Bool) : DBMState × Bool :=
  if current_time - st.last_mysql_check < mysqlCheckInterval then
    (st, st.mysql_available)
  else
    let st := { st with last_mysql_check := current_time }
    if probe_ok then
      ({ st with mysql_available := true, sqlite_fallback_active := false,
                 connection_retry_count := 0 }, true)
    else
      ({ st with mysql_available := false,
                 sqlite_fallback_active :=
                   if st.mysql_available then true
                   else st.sqlite_fallback_active }, false)

/-- The state of `DatabaseManager` at process start, before any check. -/
def initialDBMState : DBMState := {}

/-- Run a sequence of health checks; each event is the wall-clock time of
the call and the outcome the probe would have. -/
def runChecks (st : DBMState) : List (Nat × Bool) → DBMState
  | [] => st
  | e :: evs => runChecks (checkMysqlAvailability st e.1 e.2).1 evs

/-- The outcomes of the probes that actually complete (calls inside the
rate-limit window probe nothing). -/
def completedOutcomes (st : DBMState) : List (Nat × Bool) → List Bool
  | [] => []
  | e :: evs =>
      if e.1 - st.last_mysql_check < mysqlCheckInterval then
        completedOutcomes st evs
      else e.2 :: completedOutcomes (checkMysqlAvailability st e.1 e.2).1 evs

/-! ### Helper lemmas -/

theorem byteToHex_length (b : Nat) : (byteToHex b).length = 2 := rfl

theorem bytesToHex_length (bs : List Nat) :
    (bytesToHex bs).length = 2 * bs.length := by
  induction bs with
  | nil => rfl
  | cons b bs ih =>
      simp only [bytesToHex, String.length_append, byteToHex_length, ih,
        List.length_cons]
      ring

theorem wordLE_length (w : Nat) : (wordLE w).length = 4 := rfl

theorem md5DigestBytes_length (msg : List Nat) :
    (md5DigestBytes msg).length = 16 := by
  simp [md5DigestBytes, wordLE]

/-- An MD5 hex digest always has 32 characters. -/
theorem md5hex_length (msg : List Nat) : (md5hex msg).length = 32 := by
  simp [md5hex, bytesToHex_length, md5DigestBytes_length]

/-- `_calculate_data_hash` never returns a string of any length other
than 32; in particular it is never empty. -/
theorem calculateDataHash_ne_of_length (d : Data) (s : String)
    (h : s.length ≠ 32) : calculateDataHash d ≠ s := by
  intro e
  exact h (e ▸ md5hex_length (utf8Bytes (jsonDumpsSorted d)))

theorem calculateDataHash_ne_empty (d : Data) : calculateDataHash d ≠ "" := by
  apply calculateDataHash_ne_of_length
  decide

theorem mem_of_getLast?_eq {α : Type} {l : List α} {a : α}
    (h : l.getLast? = some a) : a ∈ l := by
  induction l with
  | nil => simp at h
  | cons x xs ih =>
      cases hxs : xs with
      | nil =>
          subst hxs
          simp only [List.getLast?_singleton, Option.some.injEq] at h
          simp [h]
      | cons y ys =>
          rw [hxs] at ih h
          rw [List.getLast?_cons_cons] at h
          exact List.mem_cons_of_mem x (ih h)

/-- The inductive invariant of the arbiter state over the completed probe
outcomes seen so far: the fallback flag holds exactly when some probe has
succeeded and the most recent one failed, `mysql_available` mirrors the
most recent outcome, and the retry counter stays zero. -/
def ArbiterInv (st : DBMState) (outs : List Bool) : Prop :=
  st.sqlite_fallback_active
    = (outs.contains true && (outs.getLast? == some false))
  ∧ st.mysql_available = (outs.getLast? == some true)
  ∧ st.connection_retry_count = 0

theorem arbiterInv_step (st : DBMState) (outs : List Bool) (t : Nat)
    (b : Bool) (hinv : ArbiterInv st outs)
    (hprobe : ¬ t - st.last_mysql_check < mysqlCheckInterval) :
    ArbiterInv (checkMysqlAvailability st t b).1 (outs ++ [b]) := by
  obtain ⟨h1, h2, h3⟩ := hinv
  cases b with
  | true =>
      refine ⟨?_, ?_, ?_⟩ <;>
        simp [checkMysqlAvailability, hprobe]
  | false =>
      refine ⟨?_, ?_, ?_⟩ <;>
        simp only [checkMysqlAvailability, if_neg hprobe, Bool.false_eq_true,
          if_false]
      · rw [h1, h2]
        cases houts : outs.getLast? with
        | none =>
            rw [List.getLast?_eq_none_iff.mp houts]
            simp
        | some b' =>
            cases b' with
            | true =>
                have hmem : true ∈ outs := mem_of_getLast?_eq houts
                simp [houts, hmem]
            | false => simp [houts]
      · simp
      · exact h3

theorem runChecks_inv (evs : List (Nat × Bool)) : ∀ (st : DBMState)
    (outs : List Bool), ArbiterInv st outs →
    ArbiterInv (runChecks st evs) (outs ++ completedOutcomes st evs) := by
  induction evs with
  | nil => intro st outs h; simpa [runChecks, completedOutcomes] using h
  | cons e evs ih =>
      intro st outs h
      by_cases hskip : e.1 - st.last_mysql_check < mysqlCheckInterval
      · have hst : (checkMysqlAvailability st e.1 e.2).1 = st := by
          simp [checkMysqlAvailability, hskip]
        simpa [runChecks, completedOutcomes, hskip, hst] using ih st outs h
      · have step := arbiterInv_step st outs e.1 e.2 h hskip
        have := ih _ _ step
        simpa [runChecks, completedOutcomes, hskip, List.append_assoc]
          using this

/-! ### Claims -/

/-- C5, counterexample: the very first health check from process start,
probing at time 100 and failing, leaves `sqlite_fallback_active = false`
(the flag is raised only on a transition from available to unavailable)
and leaves `connection_retry_count` at 0 (nothing increments it), even
though the most recent check failed and the claim demands
`fallbackActive = true` with the failure counter incremented by one. -/
theorem first_failed_probe_leaves_fallback_inactive :
    (checkMysqlAvailability initialDBMState 100 false).2 = false
    ∧ (checkMysqlAvailability initialDBMState 100 false).1.sqlite_fallback_active
        = false
    ∧ (checkMysqlAvailability initialDBMState 100 false).1.mysql_available
        = false
    ∧ (checkMysqlAvailability initialDBMState 100 false).1.connection_retry_count
        = 0 := by
  decide

/-- C5, amended: over every sequence of health checks from process start,
`sqlite_fallback_active` is true iff some completed probe has succeeded
and the most recent completed probe failed; `mysql_available` (the mode)
mirrors the most recent completed probe; and the retry counter is never
incremented by a probe — it stays 0. -/
theorem fallback_active_iff_probe_history (evs : List (Nat × Bool)) :
    (runChecks initialDBMState evs).sqlite_fallback_active
      = ((completedOutcomes initialDBMState evs).contains true &&
          ((completedOutcomes initialDBMState evs).getLast? == some false))
    ∧ (runChecks initialDBMState evs).mysql_available
      = ((completedOutcomes initialDBMState evs).getLast? == some true)
    ∧ (runChecks initialDBMState evs).connection_retry_count = 0 := by
  have h := runChecks_inv evs initialDBMState [] ⟨rfl, rfl, rfl⟩
  simpa [ArbiterInv] using h

/-- The conflict state used to refute C4: one unresolved conflict whose
primary row has since held balance 150, with a secondary snapshot of
balance 100. -/
def c4st : SyncState :=
  { conflictTable := [{ conflict_id := 1, table_name := "Members",
                        record_id := 7,
                        sqlite_data :=
                          some [("member_id", .jint 7), ("balance", .jint 100)],
                        mysql_data :=
                          [("member_id", .jint 7), ("balance", .jint 150)],
                        sqlite_timestamp := 5, mysql_timestamp := 6,
                        resolution_strategy := "manual" }],
    mysqlStore :=
      [⟨"Members", [("member_id", .jint 7), ("balance", .jint 150)]⟩],
    now := 30 }

/-- C4, counterexample: resolving the unresolved conflict of `c4st` with
`SQLITE_WINS` returns `True`, but the primary store's row for
`(Members, 7)` afterwards still holds balance 150 — it does not equal the
conflict's secondary snapshot (balance 100), because `resolve_conflict`
only updates the `ConflictResolution` row and never re-applies any
data. -/
theorem resolve_secondary_wins_leaves_primary_row :
    (resolveConflict c4st 1 .sqlite_wins).2 = true
    ∧ getRecordData (resolveConflict c4st 1 .sqlite_wins).1.mysqlStore
        "Members" 7
        = some [("member_id", .jint 7), ("balance", .jint 150)]
    ∧ getRecordData (resolveConflict c4st 1 .sqlite_wins).1.mysqlStore
        "Members" 7
        ≠ some [("member_id", .jint 7), ("balance", .jint 100)] := by
  decide

/-- C4, amended: `Resolve(conflictId, SecondaryWins)` on an existing
conflict returns `True` and marks the stored conflict resolved with that
strategy, but it writes nothing to either store: the primary store's rows
are all left exactly as they were. -/
theorem resolve_conflict_marks_without_write (st : SyncState)
    (row : ConflictRow) (hmem : row ∈ st.conflictTable) :
    (resolveConflict st row.conflict_id .sqlite_wins).2 = true
    ∧ (resolveConflict st row.conflict_id .sqlite_wins).1.mysqlStore
        = st.mysqlStore
    ∧ (resolveConflict st row.conflict_id .sqlite_wins).1.sqliteStore
        = st.sqliteStore
    ∧ { row with resolved := true, resolved_at := some st.now,
                 resolution_strategy := ConflictResolutionE.sqlite_wins.value }
        ∈ (resolveConflict st row.conflict_id .sqlite_wins).1.conflictTable := by
  refine ⟨?_, rfl, rfl, ?_⟩
  · simp only [resolveConflict, List.any_eq_true]
    exact ⟨row, hmem, by simp⟩
  · simp only [resolveConflict, List.mem_map]
    exact ⟨row, hmem, by simp⟩

/-- Witness for C4's amended theorem at `c4st`. -/
theorem resolve_conflict_marks_without_write_witness :
    (resolveConflict c4st 1 .sqlite_wins).2 = true
    ∧ (resolveConflict c4st 1 .sqlite_wins).1.mysqlStore = c4st.mysqlStore :=
  have h := resolve_conflict_marks_without_write c4st
    { conflict_id := 1, table_name := "Members", record_id := 7,
      sqlite_data := some [("member_id", .jint 7), ("balance", .jint 100)],
      mysql_data := [("member_id", .jint 7), ("balance", .jint 150)],
      sqlite_timestamp := 5, mysql_timestamp := 6,
      resolution_strategy := "manual" } (by decide)
  ⟨h.1, h.2.1⟩

/-- The state used to refute C8: the stored conflict is already resolved,
with strategy `manual` and a resolution time of 9. -/
def c8st : SyncState :=
  { conflictTable := [{ conflict_id := 1, table_name := "Members",
                        record_id := 7, sqlite_data := none,
                        mysql_data := [("member_id", .jint 7)],
                        sqlite_timestamp := 5, mysql_timestamp := 6,
                        resolution_strategy := "manual", resolved := true,
                        resolved_at := some 9 }],
    now := 40 }

/-- C8, counterexample: resolving the already-resolved conflict of `c8st`
again, with a different strategy, does return `True` but is not a no-op —
the stored record's strategy is overwritten from `manual` to
`mysql_wins` (and its `resolved_at` moves to the new clock). -/
theorem resolve_resolved_not_noop :
    (resolveConflict c8st 1 .mysql_wins).2 = true
    ∧ (resolveConflict c8st 1 .mysql_wins).1.conflictTable
        ≠ c8st.conflictTable
    ∧ ((resolveConflict c8st 1 .mysql_wins).1.conflictTable.map
        (·.resolution_strategy)) = ["mysql_wins"]
    ∧ ((resolveConflict c8st 1 .mysql_wins).1.conflictTable.map
        (·.resolved_at)) = [some 40] := by
  decide

/-- C8, amended: calling `resolve_conflict` on an already-resolved
conflict returns `True` and the record stays resolved, but the call is
not a no-op: the stored resolution strategy and resolution time are
overwritten with the new call's values (the UPDATE has no guard on
`resolved`). -/
theorem resolve_resolved_returns_true_overwrites (st : SyncState)
    (row : ConflictRow) (strategy : ConflictResolutionE)
    (hmem : row ∈ st.conflictTable) (hres : row.resolved = true) :
    (resolveConflict st row.conflict_id strategy).2 = true
    ∧ { row with resolved := true, resolved_at := some st.now,
                 resolution_strategy := strategy.value }
        ∈ (resolveConflict st row.conflict_id strategy).1.conflictTable := by
  refine ⟨?_, ?_⟩
  · simp only [resolveConflict, List.any_eq_true]
    exact ⟨row, hmem, by simp⟩
  · simp only [resolveConflict, List.mem_map]
    exact ⟨row, hmem, by simp⟩

/-- Witness for C8's amended theorem at `c8st`. -/
theorem resolve_resolved_returns_true_overwrites_witness :
    (resolveConflict c8st 1 .mysql_wins).2 = true
    ∧ { conflict_id := 1, table_name := "Members", record_id := 7,
        sqlite_data := none, mysql_data := [("member_id", .jint 7)],
        sqlite_timestamp := 5, mysql_timestamp := 6,
        resolution_strategy := "mysql_wins", resolved := true,
        resolved_at := some 40 : ConflictRow }
        ∈ (resolveConflict c8st 1 .mysql_wins).1.conflictTable :=
  have h := resolve_resolved_returns_true_overwrites c8st
    { conflict_id := 1, table_name := "Members", record_id := 7,
      sqlite_data := none, mysql_data := [("member_id", .jint 7)],
      sqlite_timestamp := 5, mysql_timestamp := 6,
      resolution_strategy := "manual", resolved := true,
      resolved_at := some 9 } .mysql_wins (by decide) rfl
  ⟨h.1, h.2⟩

/-- A row snapshot handed to the tracker for a DELETE. -/
def c6data : Data := [("member_id", .jint 7), ("name", .jstr "Ada")]

/-- C6, counterexample: tracking a DELETE on the enrolled table `Members`
appends one pending SyncRecord whose `contentHash` is
`_calculate_data_hash` of the supplied snapshot — a 32-character MD5
digest, not the empty string the claim requires for Delete (the code
never special-cases the operation). -/
theorem track_delete_hash_not_empty :
    ((trackRecordChange { now := 3 } "Members" 7 "DELETE" c6data
        ).syncTracking.map (·.data_hash))
      = [calculateDataHash c6data]
    ∧ calculateDataHash c6data ≠ "" := by
  refine ⟨?_, calculateDataHash_ne_empty c6data⟩
  simp [trackRecordChange, sync_tables]

/-- C6, amended: every `track_record_change` call on an enrolled table
appends exactly one `pending` SyncTracking row whose hash is the MD5 of
the supplied snapshot, for every operation including DELETE (the hash is
never empty); a call on a table outside the enrolled list appends
nothing; and `DatabaseManager.track_change` forwards to the tracker
exactly when operating on the SQLite fallback. -/
theorem track_record_change_appends_pending (st : SyncState) (t : String)
    (r : Int) (o : String) (d : Data)
    (h : sync_tables.contains t = true) :
    (trackRecordChange st t r o d).syncTracking
      = st.syncTracking ++
        [{ sync_id := st.nextSyncId, table_name := t, record_id := r,
           operation := o, timestamp := st.now,
           data_hash := calculateDataHash d, sync_status := "pending" }]
    ∧ calculateDataHash d ≠ ""
    ∧ (∀ t2, sync_tables.contains t2 = false →
        trackRecordChange st t2 r o d = st)
    ∧ trackChange true "sqlite" st t r o d = trackRecordChange st t r o d
    ∧ (∀ dbt, dbt ≠ "sqlite" → trackChange true dbt st t r o d = st) := by
  refine ⟨?_, calculateDataHash_ne_empty d, ?_, rfl, ?_⟩
  · have h' : t ∈ sync_tables := by simpa using h
    simp [trackRecordChange, h']
  · intro t2 h2
    have h2' : t2 ∉ sync_tables := by simpa using h2
    simp [trackRecordChange, h2']
  · intro dbt hdbt
    simp [trackChange, hdbt]

/-- Witness for C6's amended theorem: a DELETE tracked on `Loans`. -/
theorem track_record_change_appends_pending_witness :
    (trackRecordChange { now := 3 } "Loans" 4 "DELETE"
        [("loan_id", .jint 4)]).syncTracking
      = [{ sync_id := 1, table_name := "Loans", record_id := 4,
           operation := "DELETE", timestamp := 3,
           data_hash := calculateDataHash [("loan_id", .jint 4)],
           sync_status := "pending" }]
    ∧ calculateDataHash [("loan_id", .jint 4)] ≠ "" :=
  have h := track_record_change_appends_pending { now := 3 } "Loans" 4
    "DELETE" [("loan_id", .jint 4)] (by decide)
  ⟨h.1, h.2.1⟩

/-! The five session-level claims (C1, C2, C3, C7, C9) are all decided by
the same defect: every `SyncTracking` row a session fetches carries the
status value `pending`, `_get_pending_sync_records` rebuilds each row as
`SyncRecord(..., sync_status=SyncStatus(row[5]), ...)`, and the
`SyncStatus` enum has no member with value `pending` — so the fetch
raises `ValueError` whenever at least one pending row exists, the
session-level handler catches it, sets status ERROR and returns `False`
with nothing processed. -/

/-- The state used for C1: one pending UPDATE for `(Contributions, 5)`,
present in both stores. -/
def c1st : SyncState :=
  { syncTracking := [{ sync_id := 1, table_name := "Contributions",
                       record_id := 5, operation := "UPDATE",
                       timestamp := 10, data_hash := "h0",
                       sync_status := "pending" }],
    sqliteStore :=
      [⟨"Contributions", [("contribution_id", .jint 5), ("amount", .jint 40)]⟩],
    mysqlStore :=
      [⟨"Contributions", [("contribution_id", .jint 5), ("amount", .jint 40)]⟩],
    now := 20 }

/-- C1: with one pending record and no writes in between, both the first
and the second `synchronize_databases` run return `False` with status
ERROR, process zero records, find zero conflicts, and leave the record
`pending` — the first run never handles the record at all (the fetch
raises `ValueError: pending is not a valid SyncStatus`), so the claimed
mechanism (records leaving `pending` once handled) never happens and the
record can never be drained. -/
theorem sync_twice_never_processes :
    (synchronizeDatabases c1st).2 = ⟨false, 0, 0⟩
    ∧ (synchronizeDatabases c1st).1.sync_status = .error
    ∧ ((synchronizeDatabases c1st).1.syncTracking.map (·.sync_status))
        = ["pending"]
    ∧ (synchronizeDatabases (synchronizeDatabases c1st).1).2 = ⟨false, 0, 0⟩
    ∧ (synchronizeDatabases (synchronizeDatabases c1st).1).1.sync_status
        = .error
    ∧ ((synchronizeDatabases (synchronizeDatabases c1st).1
        ).1.syncTracking.map (·.sync_status)) = ["pending"] := by
  decide

/-- The primary-store row used for C2, independently modified since the
secondary snapshot was captured. -/
def c2mysqlData : Data := [("member_id", .jint 7), ("balance", .jint 150)]

/-- The state used for C2: a pending UPDATE for `(Members, 7)` whose
recorded hash `h0` differs from the hash of the current primary row. -/
def c2st : SyncState :=
  { syncTracking := [{ sync_id := 1, table_name := "Members",
                       record_id := 7, operation := "UPDATE",
                       timestamp := 10, data_hash := "h0",
                       sync_status := "pending" }],
    sqliteStore :=
      [⟨"Members", [("member_id", .jint 7), ("balance", .jint 100)]⟩],
    mysqlStore := [⟨"Members", c2mysqlData⟩],
    now := 20 }

/-- C2: the claim's premises hold in `c2st` — the pending UPDATE's
`(table, recordId)` exists in the primary store and the current primary
row's hash differs from the recorded `contentHash` — yet the session
produces no `ConflictRecord` at all (and applies no write): it aborts in
`_get_pending_sync_records` before `_handle_update_sync` can run. -/
theorem update_conflict_never_detected :
    calculateDataHash c2mysqlData ≠ "h0"
    ∧ getRecordData c2st.mysqlStore "Members" 7 = some c2mysqlData
    ∧ (synchronizeDatabases c2st).1.conflictTable = []
    ∧ (synchronizeDatabases c2st).1.conflicts = []
    ∧ (synchronizeDatabases c2st).1.mysqlStore = c2st.mysqlStore
    ∧ (synchronizeDatabases c2st).2 = ⟨false, 0, 0⟩ := by
  refine ⟨calculateDataHash_ne_of_length _ _ (by decide),
    by decide, by decide, by decide, by decide, by decide⟩

/-- The state used for C3: a pending UPDATE for `(Loans, 3)` with
diverged primary content, i.e. a divergence the engine is supposed to
turn into one persisted `ConflictRecord`. -/
def c3st : SyncState :=
  { syncTracking := [{ sync_id := 1, table_name := "Loans", record_id := 3,
                       operation := "UPDATE", timestamp := 11,
                       data_hash := "h1", sync_status := "pending" }],
    sqliteStore := [⟨"Loans", [("loan_id", .jint 3), ("amount", .jint 900)]⟩],
    mysqlStore := [⟨"Loans", [("loan_id", .jint 3), ("amount", .jint 800)]⟩],
    now := 21 }

/-- C3: on the divergent state `c3st` the session persists no
`ConflictRecord` whatsoever (the `ConflictResolution` table stays empty,
as does the in-memory list) and the SyncRecord's status does not become
`Conflicted` — it stays `pending`; indeed no string but `pending` and
`synced` is ever written to `sync_status`, and the fetch has already
raised before `_create_conflict_record` could run. -/
theorem conflict_record_never_persisted :
    calculateDataHash [("loan_id", .jint 3), ("amount", .jint 800)] ≠ "h1"
    ∧ (synchronizeDatabases c3st).1.conflictTable = []
    ∧ (synchronizeDatabases c3st).1.conflicts = []
    ∧ ((synchronizeDatabases c3st).1.syncTracking.map (·.sync_status))
        = ["pending"]
    ∧ (synchronizeDatabases c3st).2.ok = false := by
  refine ⟨calculateDataHash_ne_of_length _ _ (by decide),
    by decide, by decide, by decide, by decide⟩

/-- The state used for C7: two pending records on different tables. -/
def c7st : SyncState :=
  { syncTracking :=
      [{ sync_id := 1, table_name := "Members", record_id := 1,
         operation := "INSERT", timestamp := 1, data_hash := "a",
         sync_status := "pending" },
       { sync_id := 2, table_name := "Loans", record_id := 2,
         operation := "INSERT", timestamp := 2, data_hash := "b",
         sync_status := "pending" }],
    sqliteStore :=
      [⟨"Members", [("member_id", .jint 1)]⟩,
       ⟨"Loans", [("loan_id", .jint 2)]⟩],
    now := 22 }

/-- C7: the one exception a session actually raises is not caught at the
per-record boundary: `_get_pending_sync_records` itself raises
`ValueError` on the first pending row, the session-level handler catches
it, and the whole session aborts — neither of the two pending records
reaches any outcome, both stay `pending`, and zero records are synced,
instead of every non-faulting record being processed to its own
outcome. -/
theorem session_aborts_on_first_pending_record :
    getPendingSyncRecords c7st
      = .error "ValueError: pending is not a valid SyncStatus"
    ∧ (synchronizeDatabases c7st).2 = ⟨false, 0, 0⟩
    ∧ (synchronizeDatabases c7st).1.sync_status = .error
    ∧ ((synchronizeDatabases c7st).1.syncTracking.map (·.sync_status))
        = ["pending", "pending"]
    ∧ (synchronizeDatabases c7st).1.mysqlStore = [] := by
  exact ⟨rfl, by decide, by decide, by decide, by decide⟩

/-- The state used for C9: two pending updates for the same
`(Repayments, 1)` record captured at timestamps 5 and then 6, the later
one carrying the later secondary state. -/
def c9st : SyncState :=
  { syncTracking :=
      [{ sync_id := 1, table_name := "Repayments", record_id := 1,
         operation := "UPDATE", timestamp := 5, data_hash := "h5",
         sync_status := "pending" },
       { sync_id := 2, table_name := "Repayments", record_id := 1,
         operation := "UPDATE", timestamp := 6, data_hash := "h6",
         sync_status := "pending" }],
    sqliteStore :=
      [⟨"Repayments", [("repayment_id", .jint 1), ("amount", .jint 70)]⟩],
    mysqlStore :=
      [⟨"Repayments", [("repayment_id", .jint 1), ("amount", .jint 10)]⟩],
    now := 23 }

/-- C9: the session does not process the pending records in capture order
— it processes nothing at all: on `c9st` (two captures for the same
record, timestamps 5 then 6) the run returns `False` having synced zero
records, and the primary store still holds the pre-sync state rather than
the last secondary state. -/
theorem no_records_processed_in_capture_order :
    (synchronizeDatabases c9st).2 = ⟨false, 0, 0⟩
    ∧ (synchronizeDatabases c9st).1.mysqlStore
        = [⟨"Repayments", [("repayment_id", .jint 1), ("amount", .jint 10)]⟩]
    ∧ ((synchronizeDatabases c9st).1.syncTracking.map (·.sync_status))
        = ["pending", "pending"] := by
  decide

/-- C10: when `_sync_record` succeeds without conflict on a record, the
loop marks it synced and `_mark_record_synced`'s UPDATE matches on the
whole `(table_name, record_id, operation)` triple: every `SyncTracking`
row with that triple — in particular every duplicate of a second record
`rec2` with the same triple — transitions to `synced`, not only the row
of the record just processed; and the loop still goes on to process
`rec2` from its already-fetched in-memory list, dispatching
`_sync_record` on it regardless of the store update. -/
theorem mark_synced_updates_all_matching (st0 st1 : SyncState)
    (sid : String) (rec1 rec2 : SyncRecord)
    (heq : rec2.table_name = rec1.table_name
           ∧ rec2.record_id = rec1.record_id
           ∧ rec2.operation = rec1.operation)
    (h1 : syncRecord st0 rec1 sid = .ok (none, st1)) :
    (∀ row ∈ (markRecordSynced st1 rec1.table_name rec1.record_id
        rec1.operation).syncTracking,
      row.table_name = rec2.table_name → row.record_id = rec2.record_id →
      row.operation = rec2.operation → row.sync_status = "synced")
    ∧ syncLoop sid [rec1, rec2] st0
      = (match syncRecord (markRecordSynced st1 rec1.table_name
            rec1.record_id rec1.operation) rec2 sid with
         | .ok (some c, st') =>
             ({ st' with conflicts := st'.conflicts ++ [c] }, 1, 1)
         | .ok (none, st') =>
             (markRecordSynced st' rec2.table_name rec2.record_id
               rec2.operation, 0, 2)
         | .error e =>
             (logSyncMessage (markRecordSynced st1 rec1.table_name
                rec1.record_id rec1.operation) sid
               ("Failed to sync " ++ rec2.table_name ++ ":"
                 ++ toString rec2.record_id ++ ": " ++ e) "ERROR",
              0, 1)) := by
  obtain ⟨ht, hr, ho⟩ := heq
  constructor
  · intro row hmem h_t h_r h_o
    simp only [markRecordSynced, List.mem_map] at hmem
    obtain ⟨row0, _hrow0, hfeq⟩ := hmem
    by_cases hc : (row0.table_name == rec1.table_name &&
        row0.record_id == rec1.record_id &&
        row0.operation == rec1.operation) = true
    · rw [if_pos hc] at hfeq
      rw [← hfeq]
    · rw [if_neg hc] at hfeq
      rw [hfeq] at hc
      exact absurd (by simp [h_t.trans ht, h_r.trans hr, h_o.trans ho]) hc
  · simp only [syncLoop, List.foldl_cons, List.foldl_nil]
    rw [h1]

/-- The state used to witness C10: two pending UPDATE captures for
`(Members, 9)`; the primary store has no row yet, so the first record
takes the treat-as-insert path and succeeds without conflict. -/
def c10st : SyncState :=
  { syncTracking :=
      [{ sync_id := 1, table_name := "Members", record_id := 9,
         operation := "UPDATE", timestamp := 1, data_hash := "hA",
         sync_status := "pending" },
       { sync_id := 2, table_name := "Members", record_id := 9,
         operation := "UPDATE", timestamp := 2, data_hash := "hB",
         sync_status := "pending" }],
    sqliteStore :=
      [⟨"Members", [("member_id", .jint 9), ("balance", .jint 55)]⟩],
    mysqlStore := [],
    now := 7 }

/-- The first fetched record of the C10 witness scenario. -/
def c10rec1 : SyncRecord :=
  { table_name := "Members", record_id := 9, operation := "UPDATE",
    timestamp := 1, data_hash := "hA", sync_status := .idle }

/-- The second fetched record of the C10 witness scenario, sharing the
`(table, recordId, operation)` triple of the first. -/
def c10rec2 : SyncRecord :=
  { table_name := "Members", record_id := 9, operation := "UPDATE",
    timestamp := 2, data_hash := "hB", sync_status := .idle }

/-- The state after the first record of the C10 scenario is synced
(inserted into MySQL and logged). -/
def c10st1 : SyncState :=
  { c10st with
    mysqlStore := [⟨"Members", [("member_id", .jint 9), ("balance", .jint 55)]⟩],
    syncLogTable := [⟨"s", "Inserted Members:9 to MySQL (was update)", "INFO"⟩] }

set_option maxRecDepth 200000 in
/-- Witness for C10: after the first record is synced, both pending rows
for `(Members, 9, UPDATE)` are `synced`, and the loop still processes the
second fetched record (here its hash no longer matches, so it yields the
session's one conflict and the counters end at one conflict, one synced
record). -/
theorem mark_synced_updates_all_matching_witness :
    ((markRecordSynced c10st1 "Members" 9 "UPDATE").syncTracking.map
        (·.sync_status)) = ["synced", "synced"]
    ∧ (syncLoop "s" [c10rec1, c10rec2] c10st).2 = (1, 1) := by
  have h := mark_synced_updates_all_matching c10st c10st1 "s" c10rec1
    c10rec2 ⟨rfl, rfl, rfl⟩ rfl
  refine ⟨by decide, ?_⟩
  rw [h.2]
  decide

end Village
